import Mathlib

/-!
Verification of the inference-gateway core (text / image model services and
the image-upload endpoints) against its specification.

The embedding models Python dictionaries of generation parameters as
functions from string keys to optional values: `none` means the key is
absent from the dict.  A dict whose stored values may themselves be the
Python literal `None` is modelled with a doubly-optional codomain, where
`some none` means "key present, value None".  Values of parameters are an
opaque type parameter `V`: the merge logic only moves values around and
never computes with them.
-/

/-- A Python dict with string keys whose values are never `None`
(e.g. the result of `model_dump(exclude_none=True)`), viewed through
lookups: `d k = none` means the key `k` is absent. -/
def PyDict (V : Type) : Type := String → Option V

/-- A Python dict with string keys whose stored values may be the literal
`None`: `d k = none` means absent, `d k = some none` means present with
value `None`, `d k = some (some v)` means present with value `v`. -/
def PyDictOpt (V : Type) : Type := String → Option (Option V)

/-- The `LLMArgs` pydantic model of `src/models/llm_settings.py`: seven
optional generation-parameter fields, in declaration order. -/
structure LLMArgs (V : Type) where
  temperature : Option V
  seed : Option V
  max_tokens : Option V
  top_p : Option V
  frequency_penalty : Option V
  presence_penalty : Option V
  response_format : Option V

/-- `self.settings.llm_args.model_dump(exclude_none=True)`: the dict holding
exactly the non-`None` fields of the `LLMArgs` model, keyed by field name. -/
def LLMArgs.model_dump_exclude_none {V : Type} (a : LLMArgs V) : PyDict V := fun k =>
  if k = "temperature" then a.temperature
  else if k = "seed" then a.seed
  else if k = "max_tokens" then a.max_tokens
  else if k = "top_p" then a.top_p
  else if k = "frequency_penalty" then a.frequency_penalty
  else if k = "presence_penalty" then a.presence_penalty
  else if k = "response_format" then a.response_format
  else none

/-- The dict comprehension
`{k: v for k, v in override_args.items() if v is not None}`:
keeps exactly the keys whose stored value is not the literal `None`. -/
def clean_overrides_of {V : Type} (o : PyDictOpt V) : PyDict V := fun k =>
  match o k with
  | some (some v) => some v
  | _ => none

/-- The lookup effect of Python `d.update(e)`: a key present in `e` takes
`e`'s value, every other key keeps `d`'s value. -/
def dictUpdate {V : Type} (d e : PyDict V) : PyDict V := fun k =>
  match e k with
  | some v => some v
  | none => d k

/-- `TextModel._merge_args` of `src/services/text_model.py` (lines 10-17):
dump the configured defaults excluding `None` fields, and if `override_args`
is truthy, update with the overrides whose values are not `None`.
(An empty overrides dict is falsy in Python and skips the update, which has
the same lookups as updating with an empty dict.) -/
def TextModel.merge_args {V : Type} (llm_args_settings : LLMArgs V)
    (override_args : Option (PyDictOpt V)) : PyDict V :=
  let default_args := llm_args_settings.model_dump_exclude_none
  match override_args with
  | some o => dictUpdate default_args (clean_overrides_of o)
  | none => default_args

/-- `ImageModel._merge_args` of `src/services/image_model.py` (lines 11-17):
same merging code as the text model's. -/
def ImageModel.merge_args {V : Type} (llm_args_settings : LLMArgs V)
    (override_args : Option (PyDictOpt V)) : PyDict V :=
  let default_args := llm_args_settings.model_dump_exclude_none
  match override_args with
  | some o => dictUpdate default_args (clean_overrides_of o)
  | none => default_args

/-- The effective parameter set as the spec words it (section 3 invariant and
section 4.1): per key, the override's value when present and non-absent,
else the default's value when present, else absent. -/
def effectiveParams {V : Type} (defaults : PyDict V)
    (overrides : Option (PyDictOpt V)) : PyDict V := fun k =>
  match overrides with
  | none => defaults k
  | some o =>
    match o k with
    | some (some v) => some v
    | _ => defaults k

/-! ## Multimodal message builder (`ImageModel._create_image_messages`)

Bytes read from the uploaded asset are modelled as a `List Nat`, each entry
reduced mod 256 where it is consumed.  Python's `str.lower()` is modelled
per character with `Char.toLower` (ASCII case folding; every extension in
the lookup table is ASCII). -/

/-- Python `s.lower()`, per-character ASCII case folding. -/
def pyLower (s : String) : String := String.mk (s.data.map Char.toLower)

/-- Python `s.rfind(c)` helper: fold over the characters keeping the last
index at which `c` occurs. -/
def rfindAux (c : Char) : List Char → Nat → Int → Int
  | [], _, acc => acc
  | x :: rest, i, acc => rfindAux c rest (i + 1) (if x = c then Int.ofNat i else acc)

/-- Python `s.rfind(c)`: the greatest index at which `c` occurs, or -1. -/
def rfind (s : String) (c : Char) : Int := rfindAux c s.data 0 (-1)

/-- `os.path.splitext` (posixpath): split off the extension at the last dot
of the last path component, unless that component consists only of leading
dots up to the split point. -/
def splitext (p : String) : String × String :=
  let cs := p.data
  let sepIndex := rfind p '/'
  let dotIndex := rfind p '.'
  if sepIndex < dotIndex then
    let filenameIndex := (sepIndex + 1).toNat
    let name := (cs.drop filenameIndex).take (dotIndex.toNat - filenameIndex)
    if name.any (fun ch => ch ≠ '.') then
      (String.mk (cs.take dotIndex.toNat), String.mk (cs.drop dotIndex.toNat))
    else (p, "")
  else (p, "")

/-- The standard base64 alphabet character for a sextet value. -/
def b64Char (n : Nat) : Char :=
  "ABCDEFGHIJKLMNOPQRSTUVWXYZabcdefghijklmnopqrstuvwxyz0123456789+/".data.getD n 'A'

/-- `base64.b64encode(bytes).decode('utf-8')`: standard base64 with padding,
three input bytes per four output characters. -/
def base64Encode : List Nat → String
  | [] => ""
  | [a] =>
    let a := a % 256
    String.mk [b64Char (a / 4), b64Char (a % 4 * 16), '=', '=']
  | [a, b] =>
    let a := a % 256
    let b := b % 256
    String.mk [b64Char (a / 4), b64Char (a % 4 * 16 + b / 16), b64Char (b % 16 * 4), '=']
  | a :: b :: c :: rest =>
    let a := a % 256
    let b := b % 256
    let c := c % 256
    String.mk [b64Char (a / 4), b64Char (a % 4 * 16 + b / 16),
      b64Char (b % 16 * 4 + c / 64), b64Char (c % 64)] ++ base64Encode rest

/-- `ImageModel._encode_image`, once the asset's bytes have been read:
base64-encode them.  (The read itself can fail; the callers below take the
read's outcome as an explicit `Except` parameter.) -/
def ImageModel.encode_image (bytes : List Nat) : String := base64Encode bytes

/-- The fixed extension-to-MIME lookup table of `_create_image_messages`,
`dict.get` with default `'image/jpeg'`. -/
def mimeTable (ext : String) : String :=
  if ext = ".jpg" then "image/jpeg"
  else if ext = ".jpeg" then "image/jpeg"
  else if ext = ".png" then "image/png"
  else if ext = ".gif" then "image/gif"
  else if ext = ".webp" then "image/webp"
  else "image/jpeg"

/-- The MIME type `_create_image_messages` embeds for a given asset path:
`mimeTable` applied to the lowercased extension from `os.path.splitext`. -/
def mimeFromPath (image_path : String) : String :=
  mimeTable (pyLower (splitext image_path).2)

/-- One content part of a multimodal message: the source's
`{"type": "text", "text": ...}` or `{"type": "image_url",
"image_url": {"url": ...}}`. -/
inductive ContentPart : Type
  | text (text : String)
  | image_url (url : String)

/-- A conversation message as built by `_create_image_messages`. -/
structure ChatMessage : Type where
  role : String
  content : List ContentPart

/-- `ImageModel._create_image_messages` (lines 24-58), with the asset's
bytes passed in for `_encode_image`: one user message whose content is the
text prompt followed by an image part holding a base64 data URI. -/
def ImageModel.create_image_messages (bytes : List Nat) (image_path : String)
    (prompt : String) : List ChatMessage :=
  let base64_image := ImageModel.encode_image bytes
  let ext := pyLower (splitext image_path).2
  let mime_type := mimeTable ext
  [{ role := "user",
     content := [ContentPart.text prompt,
       ContentPart.image_url ("data:" ++ mime_type ++ ";base64," ++ base64_image)] }]

/-! ## Backend contract and the orchestrator operations

`llm_chat_async` returns a list of objects carrying a `.response` text; it
is modelled as a function from the built messages and merged parameters to
an `Except`: `.error` is a raised backend exception.  A streaming backend
(`llm_streaming_chat`) is a lazy chunk sequence that either ends, yields a
chunk, or raises; logging side effects are modelled where a claim mentions
them (the single-shot log list) and elided elsewhere. -/

/-- One element of the list `llm_chat_async` returns. -/
structure Candidate : Type where
  response : String

/-- A backend chunk sequence as the streaming loop observes it: at each
point it ends normally, yields one chunk, or raises an exception. -/
inductive BackendStream : Type
  | done : BackendStream
  | chunk (c : String) (rest : BackendStream)
  | raises (msg : String) : BackendStream

/-- The `async for chunk in llm_streaming_chat(...): yield chunk` loop body
inside the `try`: forward every chunk; a raise is caught by the enclosing
`except`, which yields one final `"Error: <message>"` chunk. -/
def runStreamLoop : BackendStream → List String
  | .done => []
  | .chunk c rest => c :: runStreamLoop rest
  | .raises m => ["Error: " ++ m]

/-- A backend stream that yields the chunks of `pre` in order and then
raises with message `m`. -/
def chunksThenRaise (pre : List String) (m : String) : BackendStream :=
  pre.foldr BackendStream.chunk (BackendStream.raises m)

/-- `TextModel.generate_response` (lines 19-37): merge the parameters, call
`llm_chat_async`, return the first candidate's response or `""`; on a raised
backend exception, log `"Error in generate_response: <e>"` and re-raise.
Result: (returned value or re-raised exception, log lines emitted). -/
def TextModel.generate_response {V M : Type} (llm_args_settings : LLMArgs V)
    (llm_args : Option (PyDictOpt V)) (messages : M)
    (llm_chat_async : M → PyDict V → Except String (List Candidate)) :
    Except String String × List String :=
  let merged_args := TextModel.merge_args llm_args_settings llm_args
  match llm_chat_async messages merged_args with
  | .ok response => (.ok (match response with | [] => "" | r :: _ => r.response), [])
  | .error e => (.error e, ["Error in generate_response: " ++ e])

/-- `TextModel.generate_response_stream` (lines 39-62): merge the
parameters, then forward the backend stream's chunks, degrading a raised
exception to one final `"Error: <message>"` chunk.  The function is total:
no exception escapes the produced sequence. -/
def TextModel.generate_response_stream {V M : Type} (llm_args_settings : LLMArgs V)
    (llm_args : Option (PyDictOpt V)) (messages : M)
    (llm_streaming_chat : M → PyDict V → BackendStream) : List String :=
  let merged_args := TextModel.merge_args llm_args_settings llm_args
  runStreamLoop (llm_streaming_chat messages merged_args)

/-- `ImageModel.generate_response` (lines 60-80): inside the `try`, merge
parameters and build the multimodal messages — `_encode_image`'s file read
may raise, modelled by the `fileBytes` parameter — then call
`llm_chat_async`; the `except` logs and re-raises any exception. -/
def ImageModel.generate_response {V : Type} (llm_args_settings : LLMArgs V)
    (llm_args : Option (PyDictOpt V)) (fileBytes : Except String (List Nat))
    (image_path : String) (prompt : String)
    (llm_chat_async : List ChatMessage → PyDict V → Except String (List Candidate)) :
    Except String String × List String :=
  match fileBytes with
  | .error m => (.error m, ["Error in generate_response: " ++ m])
  | .ok bytes =>
    let merged_args := ImageModel.merge_args llm_args_settings llm_args
    let messages := ImageModel.create_image_messages bytes image_path prompt
    match llm_chat_async messages merged_args with
    | .ok response => (.ok (match response with | [] => "" | r :: _ => r.response), [])
    | .error e => (.error e, ["Error in generate_response: " ++ e])

/-- `ImageModel.generate_response_stream` (lines 82-105): the whole body is
inside the `try`, so a failing asset read is also degraded to one
`"Error: <message>"` chunk, like a mid-stream backend raise. -/
def ImageModel.generate_response_stream {V : Type} (llm_args_settings : LLMArgs V)
    (llm_args : Option (PyDictOpt V)) (fileBytes : Except String (List Nat))
    (image_path : String) (prompt : String)
    (llm_streaming_chat : List ChatMessage → PyDict V → BackendStream) : List String :=
  match fileBytes with
  | .error m => ["Error: " ++ m]
  | .ok bytes =>
    let merged_args := ImageModel.merge_args llm_args_settings llm_args
    let messages := ImageModel.create_image_messages bytes image_path prompt
    runStreamLoop (llm_streaming_chat messages merged_args)

/-! ## The image endpoints' asset lifetime (`model_inference_endpoints.py`)

The scratch file's lifetime is modelled with a small state: whether the
temporary file currently exists and how many times `os.remove` has been
executed on it.  The handlers thread this state through their `try` /
`except` / `finally` structure exactly as the source orders the effects. -/

/-- The scratch-storage state for one request's temporary upload file. -/
structure FsState : Type where
  fileExists : Bool
  removes : Nat

/-- Before the handler runs: no temporary file, no removal performed. -/
def FsState.init : FsState := { fileExists := false, removes := 0 }

/-- `open(temp_file_path, "wb")` succeeding: the file now exists. -/
def createFile (fs : FsState) : FsState := { fs with fileExists := true }

/-- `if temp_file_path and os.path.exists(temp_file_path): os.remove(...)`:
remove the file only when it exists. -/
def removeIfExists (fs : FsState) : FsState :=
  if fs.fileExists then { fileExists := false, removes := fs.removes + 1 } else fs

/-- How materializing the upload to the scratch file can go: it succeeds,
or raises after the file was created (write failure), or raises before any
file exists (open failure). -/
inductive WriteOutcome : Type
  | ok : WriteOutcome
  | failAfterCreate (msg : String) : WriteOutcome
  | failBeforeCreate (msg : String) : WriteOutcome

/-- Whether the scratch file was materialized at all under this outcome. -/
def WriteOutcome.created : WriteOutcome → Bool
  | .failBeforeCreate _ => false
  | _ => true

/-- How the consumer of a streamed response treats the produced sequence:
drains it to its natural end, or aborts (disconnects) after some number of
chunks, which closes the generator and runs its `finally`. -/
inductive Consumption : Type
  | drained : Consumption
  | abortedAfter (k : Nat) : Consumption

/-- `generate_image_description` (lines 277-303): materialize the upload,
call `ImageModel.generate_response` (its outcome is the `call` parameter),
translate an exception into an HTTP 500 (`Except.error`), and in `finally`
remove the scratch file if it exists. -/
def generate_image_description (w : WriteOutcome) (call : Except String String)
    (fs : FsState) : Except String String × FsState :=
  let step : Except String String × FsState :=
    match w with
    | .failBeforeCreate m => (.error m, fs)
    | .failAfterCreate m => (.error m, createFile fs)
    | .ok =>
      let fs := createFile fs
      match call with
      | .ok r => (.ok r, fs)
      | .error m => (.error m, fs)
  (step.1, removeIfExists step.2)

/-- `stream_image_description` (lines 344-378): materialize the upload; on
an exception in the `try`, remove the scratch file if it exists and raise
HTTP 500; otherwise return the stream produced by `iterfile`, whose
`finally` removes the scratch file once the sequence is drained or the
consumer aborts.  `chunks` is the sequence `generate_response_stream`
produces. -/
def stream_image_description (w : WriteOutcome) (chunks : List String)
    (how : Consumption) (fs : FsState) : Except String (List String) × FsState :=
  match w with
  | .failBeforeCreate m => (.error m, removeIfExists fs)
  | .failAfterCreate m => (.error m, removeIfExists (createFile fs))
  | .ok =>
    let fs := createFile fs
    let delivered := match how with
      | .drained => chunks
      | .abortedAfter k => chunks.take k
    (.ok delivered, removeIfExists fs)

/-- Example configured defaults used by concrete witnesses: temperature 7
and seed 1 configured, the other five fields unset. -/
def exampleArgs : LLMArgs Nat :=
  { temperature := some 7, seed := some 1, max_tokens := none, top_p := none,
    frequency_penalty := none, presence_penalty := none, response_format := none }

/-- Example request overrides used by concrete witnesses: seed overridden
to 3, temperature present but holding the literal `None`, the rest absent. -/
def exampleOverride : PyDictOpt Nat := fun k =>
  if k = "seed" then some (some 3)
  else if k = "temperature" then some none
  else none

/-! ## Helper lemmas -/

theorem text_merge_eq_effective {V : Type} (a : LLMArgs V)
    (o : Option (PyDictOpt V)) (k : String) :
    TextModel.merge_args a o k = effectiveParams a.model_dump_exclude_none o k := by
  cases o with
  | none => rfl
  | some ov =>
    simp only [TextModel.merge_args, dictUpdate, clean_overrides_of, effectiveParams]
    cases h : ov k with
    | none => rfl
    | some v => cases v <;> rfl

theorem image_merge_eq_effective {V : Type} (a : LLMArgs V)
    (o : Option (PyDictOpt V)) (k : String) :
    ImageModel.merge_args a o k = effectiveParams a.model_dump_exclude_none o k := by
  cases o with
  | none => rfl
  | some ov =>
    simp only [ImageModel.merge_args, dictUpdate, clean_overrides_of, effectiveParams]
    cases h : ov k with
    | none => rfl
    | some v => cases v <;> rfl

theorem runStreamLoop_chunksThenRaise (pre : List String) (m : String) :
    runStreamLoop (chunksThenRaise pre m) = pre ++ ["Error: " ++ m] := by
  induction pre with
  | nil => rfl
  | cons c rest ih =>
    simp only [chunksThenRaise, List.foldr] at ih ⊢
    simp only [runStreamLoop, ih, List.cons_append]

/-! ## The claims -/

/-- C1: for every defaults set and every optional overrides set, the merged
parameter set maps each key to the override's value when that key is present
with a non-`None` value, else to the default's value when present there,
else the key is absent from the result; merging with absent overrides
returns the defaults unchanged, an absent (or `None`) override field never
erases a default, and a key absent from both is absent from the merged dict
sent to the backend — for both the text and the image model mergers. -/
theorem merged_params_effective {V : Type} (a : LLMArgs V) (ov : PyDictOpt V)
    (k : String) :
    (∀ v, ov k = some (some v) → TextModel.merge_args a (some ov) k = some v) ∧
    ((ov k = none ∨ ov k = some none) →
      TextModel.merge_args a (some ov) k = a.model_dump_exclude_none k) ∧
    TextModel.merge_args a none k = a.model_dump_exclude_none k ∧
    ((ov k = none ∨ ov k = some none) → a.model_dump_exclude_none k = none →
      TextModel.merge_args a (some ov) k = none) ∧
    (∀ v, ov k = some (some v) → ImageModel.merge_args a (some ov) k = some v) ∧
    ((ov k = none ∨ ov k = some none) →
      ImageModel.merge_args a (some ov) k = a.model_dump_exclude_none k) ∧
    ImageModel.merge_args a none k = a.model_dump_exclude_none k := by
  refine ⟨?_, ?_, rfl, ?_, ?_, ?_, rfl⟩
  · intro v h
    rw [text_merge_eq_effective]
    simp [effectiveParams, h]
  · intro h
    rw [text_merge_eq_effective]
    rcases h with h | h <;> simp [effectiveParams, h]
  · intro h h0
    rw [text_merge_eq_effective]
    rcases h with h | h <;> simp [effectiveParams, h, h0]
  · intro v h
    rw [image_merge_eq_effective]
    simp [effectiveParams, h]
  · intro h
    rw [image_merge_eq_effective]
    rcases h with h | h <;> simp [effectiveParams, h]

/-- C1 witness: with temperature 7 and seed 1 configured, seed overridden
to 3 and temperature overridden by the literal `None`, the merged set takes
the override for seed and keeps the default temperature. -/
theorem merged_params_effective_witness :
    TextModel.merge_args exampleArgs (some exampleOverride) "seed" = some 3 ∧
    TextModel.merge_args exampleArgs (some exampleOverride) "temperature" = some 7 :=
  ⟨(merged_params_effective exampleArgs exampleOverride "seed").1 3 rfl,
   (merged_params_effective exampleArgs exampleOverride "temperature").2.1 (Or.inr rfl)⟩

/-- C2: a backend stream that yields a prefix of chunks and then raises
produces, for both models, exactly that prefix in order followed by one
final synthetic chunk "Error: <message>"; the produced sequence is a total
value of type `List String`, so no exception propagates through the
stream. -/
theorem stream_failure_sentinel {V M : Type} (a : LLMArgs V)
    (o : Option (PyDictOpt V)) (messages : M) (bytes : List Nat)
    (path prompt : String) (pre : List String) (m : String) :
    TextModel.generate_response_stream a o messages
      (fun _ _ => chunksThenRaise pre m) = pre ++ ["Error: " ++ m] ∧
    ImageModel.generate_response_stream a o (.ok bytes) path prompt
      (fun _ _ => chunksThenRaise pre m) = pre ++ ["Error: " ++ m] :=
  ⟨runStreamLoop_chunksThenRaise pre m, runStreamLoop_chunksThenRaise pre m⟩

/-- C3: for both image endpoints and on every exit path — single-shot
success, single-shot failure, stream drained, stream aborted by the
consumer, and a failing upload write — the handler ends with the scratch
file gone, and `os.remove` ran exactly once whenever the file was
materialized (zero times when it never existed). -/
theorem asset_cleanup_every_path (w : WriteOutcome) (call : Except String String)
    (chunks : List String) (how : Consumption) :
    (generate_image_description w call FsState.init).2.fileExists = false ∧
    (generate_image_description w call FsState.init).2.removes
      = (if w.created then 1 else 0) ∧
    (stream_image_description w chunks how FsState.init).2.fileExists = false ∧
    (stream_image_description w chunks how FsState.init).2.removes
      = (if w.created then 1 else 0) := by
  cases w <;> cases call <;> cases how <;>
    simp [generate_image_description, stream_image_description,
      WriteOutcome.created, createFile, removeIfExists, FsState.init]

/-- C4 counterexample: when the uploaded asset cannot be read (read fails
with "could not read asset"), the streaming image operation does not fail
the call: the endpoint returns a well-formed stream whose single chunk is
the sentinel "Error: could not read asset", and its result is not an error
for any message. -/
theorem stream_read_failure_not_call_failure :
    (stream_image_description .ok
      (ImageModel.generate_response_stream exampleArgs none
        (.error "could not read asset") "x.png" "describe" (fun _ _ => .done))
      .drained FsState.init).1 = .ok ["Error: could not read asset"] ∧
    ∀ e, (stream_image_description .ok
      (ImageModel.generate_response_stream exampleArgs none
        (.error "could not read asset") "x.png" "describe" (fun _ _ => .done))
      .drained FsState.init).1 ≠ .error e := by
  refine ⟨rfl, ?_⟩
  intro e h
  exact Except.noConfusion h

/-- C4 (amended): a failing asset read fails the single-shot call — the
error is logged and re-raised, the endpoint answers with that failure and
removes the scratch file exactly once — while the streaming operation
surfaces the same failure as the single terminal chunk "Error: <message>"
of an otherwise well-formed stream (no exception propagates, the endpoint
result is not a call failure), and the scratch file is still removed
exactly once. -/
theorem read_failure_surfacing {V : Type} (m : String) (a : LLMArgs V)
    (o : Option (PyDictOpt V)) (path prompt : String)
    (chat : List ChatMessage → PyDict V → Except String (List Candidate))
    (schat : List ChatMessage → PyDict V → BackendStream) (how : Consumption) :
    (ImageModel.generate_response a o (.error m) path prompt chat).1 = .error m ∧
    (ImageModel.generate_response a o (.error m) path prompt chat).2
      = ["Error in generate_response: " ++ m] ∧
    (generate_image_description .ok
      (ImageModel.generate_response a o (.error m) path prompt chat).1
      FsState.init).2.removes = 1 ∧
    (generate_image_description .ok
      (ImageModel.generate_response a o (.error m) path prompt chat).1
      FsState.init).2.fileExists = false ∧
    ImageModel.generate_response_stream a o (.error m) path prompt schat
      = ["Error: " ++ m] ∧
    (stream_image_description .ok
      (ImageModel.generate_response_stream a o (.error m) path prompt schat)
      .drained FsState.init).1 = .ok ["Error: " ++ m] ∧
    (stream_image_description .ok
      (ImageModel.generate_response_stream a o (.error m) path prompt schat)
      how FsState.init).2.removes = 1 ∧
    (stream_image_description .ok
      (ImageModel.generate_response_stream a o (.error m) path prompt schat)
      how FsState.init).2.fileExists = false :=
  ⟨rfl, rfl, rfl, rfl, rfl, rfl, rfl, rfl⟩

/-- C5: for both models, when the backend returns a candidate list the
single-shot call returns the first candidate's response text, and an empty
candidate list yields the empty string with no error raised. -/
theorem single_shot_first_candidate {V M : Type} (a : LLMArgs V)
    (o : Option (PyDictOpt V)) (messages : M) (bytes : List Nat)
    (path prompt : String) (cands : List Candidate) :
    (TextModel.generate_response a o messages (fun _ _ => .ok cands)).1
      = .ok (match cands with | [] => "" | c :: _ => c.response) ∧
    (ImageModel.generate_response a o (.ok bytes) path prompt
      (fun _ _ => .ok cands)).1
      = .ok (match cands with | [] => "" | c :: _ => c.response) := by
  cases cands <;> exact ⟨rfl, rfl⟩

/-- C6: for every asset (bytes and path) and every prompt, the multimodal
message builder produces exactly one message, of role "user", whose content
is the text part carrying the prompt followed by the image part whose data
URI is "data:<mime>;base64," followed by the base64 encoding of the asset's
bytes. -/
theorem image_message_shape (bytes : List Nat) (path prompt : String) :
    ImageModel.create_image_messages bytes path prompt
      = [{ role := "user",
           content := [ContentPart.text prompt,
             ContentPart.image_url
               ("data:" ++ mimeFromPath path ++ ";base64," ++ base64Encode bytes)] }] :=
  rfl

/-- C7: the MIME type embedded for an asset path follows the fixed table on
the (case-folded) extension — .jpg/.jpeg to image/jpeg, .png to image/png,
.gif to image/gif, .webp to image/webp — and any extension outside the
table yields exactly "image/jpeg". -/
theorem mime_extension_table (path : String) :
    (pyLower (splitext path).2 = ".jpg" → mimeFromPath path = "image/jpeg") ∧
    (pyLower (splitext path).2 = ".jpeg" → mimeFromPath path = "image/jpeg") ∧
    (pyLower (splitext path).2 = ".png" → mimeFromPath path = "image/png") ∧
    (pyLower (splitext path).2 = ".gif" → mimeFromPath path = "image/gif") ∧
    (pyLower (splitext path).2 = ".webp" → mimeFromPath path = "image/webp") ∧
    (pyLower (splitext path).2
        ∉ ([".jpg", ".jpeg", ".png", ".gif", ".webp"] : List String) →
      mimeFromPath path = "image/jpeg") := by
  unfold mimeFromPath mimeTable
  refine ⟨?_, ?_, ?_, ?_, ?_, ?_⟩ <;> intro h
  · rw [h]; decide
  · rw [h]; decide
  · rw [h]; decide
  · rw [h]; decide
  · rw [h]; decide
  · simp only [List.mem_cons, List.not_mem_nil, or_false, not_or] at h
    obtain ⟨h1, h2, h3, h4, h5⟩ := h
    rw [if_neg h1, if_neg h2, if_neg h3, if_neg h4, if_neg h5]

/-- C7 witness: a supported extension selects its table entry and an
unsupported one falls back to image/jpeg. -/
theorem mime_extension_table_witness :
    mimeFromPath "img.webp" = "image/webp" ∧
    mimeFromPath "doc.txt" = "image/jpeg" :=
  ⟨(mime_extension_table "img.webp").2.2.2.2.1 rfl,
   (mime_extension_table "doc.txt").2.2.2.2.2 (by decide)⟩

/-- C8: for both models, a backend failure in the single-shot path is never
swallowed: the call's result is exactly that failure re-raised, the log
records the originating exception text, and no normal result is ever
returned when the backend raised. -/
theorem single_shot_reraises_failure {V M : Type} (a : LLMArgs V)
    (o : Option (PyDictOpt V)) (messages : M) (bytes : List Nat)
    (path prompt : String) (e : String) :
    (TextModel.generate_response a o messages (fun _ _ => .error e)).1
      = .error e ∧
    (TextModel.generate_response a o messages (fun _ _ => .error e)).2
      = ["Error in generate_response: " ++ e] ∧
    (∀ r, (TextModel.generate_response a o messages (fun _ _ => .error e)).1
      ≠ .ok r) ∧
    (ImageModel.generate_response a o (.ok bytes) path prompt
      (fun _ _ => .error e)).1 = .error e ∧
    (ImageModel.generate_response a o (.ok bytes) path prompt
      (fun _ _ => .error e)).2 = ["Error in generate_response: " ++ e] ∧
    (∀ r, (ImageModel.generate_response a o (.ok bytes) path prompt
      (fun _ _ => .error e)).1 ≠ .ok r) := by
  refine ⟨rfl, rfl, ?_, rfl, rfl, ?_⟩ <;> intro r h <;> exact Except.noConfusion h

/-- C9: MIME-type inference is case-insensitive in the file extension: two
paths whose extensions agree after case folding select the same MIME type,
and an extension that case-folds to .png, .gif or .webp selects that
table entry rather than the image/jpeg fallback. -/
theorem mime_case_fold (p : String) :
    (∀ q, pyLower (splitext p).2 = pyLower (splitext q).2 →
      mimeFromPath p = mimeFromPath q) ∧
    (pyLower (splitext p).2 = ".png" → mimeFromPath p = "image/png") ∧
    (pyLower (splitext p).2 = ".gif" → mimeFromPath p = "image/gif") ∧
    (pyLower (splitext p).2 = ".webp" → mimeFromPath p = "image/webp") := by
  refine ⟨?_, ?_, ?_, ?_⟩
  · intro q h
    unfold mimeFromPath
    rw [h]
  all_goals intro h
  all_goals unfold mimeFromPath mimeTable
  all_goals rw [h]
  all_goals decide

/-- C9 witness: the upper-cased extension .PNG selects the same MIME type
as its lowercase form. -/
theorem mime_case_fold_witness :
    mimeFromPath "photo.PNG" = mimeFromPath "photo.png" :=
  (mime_case_fold "photo.PNG").1 "photo.png" rfl

/-- C10: the text modality's and the image modality's parameter-merge
functions return identical results on every defaults set and every optional
overrides set: one and the same merging semantics. -/
theorem merge_semantics_agree {V : Type} (a : LLMArgs V)
    (o : Option (PyDictOpt V)) (k : String) :
    TextModel.merge_args a o k = ImageModel.merge_args a o k := by
  rw [text_merge_eq_effective, image_merge_eq_effective]
